import Mathlib

/-!
Verification of the wildfire-backend emergency fan-out pipeline.

Shallow embedding of the core components:
* `FireAlertService` (services/fireAlertService.js): severity scoring,
  payload validation, alert history ring.
* `processNotification` (routes/sns.js): field extraction with JS
  truthiness fallback chains, emergency flag check, broadcast decision.
* The SNS webhook handlers (`POST /sns/webhook` and the
  `POST /webhook/fire-alert` alias) and the subscription-confirmation
  branch.
* `broadcast.fireEmergency` (websocket/socketHandler.js): the multicast
  emission list, together with room membership and delivery.

JavaScript numbers are modelled as rationals (`ℚ`); absent fields as
`Option`; JS truthiness of a number is `v ≠ 0`, of a string `s ≠ ""`,
of an object `true`. Exceptions are modelled with `Except`; a JS
`try/catch` is `jsTry`.
-/

namespace Wildfire

/-! ### JS value helpers -/

/-- JS truthiness of a possibly-missing number: `undefined` and `0` are
falsy. -/
def numTruthy : Option ℚ → Bool
  | none => false
  | some v => v ≠ 0

/-- JS truthiness of a possibly-missing string: `undefined` and `""` are
falsy. -/
def strTruthy : Option String → Bool
  | none => false
  | some s => s ≠ ""

/-- JS truthiness of a possibly-missing boolean. -/
def boolTruthy : Option Bool → Bool
  | none => false
  | some b => b

/-- JS `x || y` on a numeric left operand with a numeric default. -/
def numOr (x : Option ℚ) (y : ℚ) : ℚ :=
  match x with
  | some v => if v = 0 then y else v
  | none => y

/-- JS `x || y` on a string left operand with a string default. -/
def strOr (x : Option String) (y : String) : String :=
  match x with
  | some s => if s = "" then y else s
  | none => y

/-- JS `x || y` on two possibly-missing strings (keeps undefined-ness,
as in `SubscribeURL || subscribeURL || SubscribeUrl`). -/
def strOrOpt (x y : Option String) : Option String :=
  match x with
  | some s => if s = "" then y else some s
  | none => y

/-- JS `try { action } catch (e) { handler(e) }`. -/
def jsTry (action : Except String α) (handler : String → α) : α :=
  match action with
  | .ok v => v
  | .error e => handler e

/-! ### Alert Classifier: `FireAlertService.calculateSeverity` -/

/-- The five severity tiers returned by `calculateSeverity`. -/
inductive Severity where
  | LOW
  | MODERATE
  | HIGH
  | CRITICAL
  | EXTREME
deriving DecidableEq, Repr

open Severity

/-- Temperature contribution in `calculateSeverity`:
`if (t > 60) +3 else if (t > 45) +2 else if (t > 35) +1`. -/
def tempScore (t : ℚ) : Nat :=
  if t > 60 then 3 else if t > 45 then 2 else if t > 35 then 1 else 0

/-- Humidity contribution (inverse scale):
`if (h < 20) +3 else if (h < 35) +2 else if (h < 50) +1`. -/
def humidityScore (h : ℚ) : Nat :=
  if h < 20 then 3 else if h < 35 then 2 else if h < 50 then 1 else 0

/-- Smoke-level contribution:
`if (s > 300) +3 else if (s > 200) +2 else if (s > 100) +1`. -/
def smokeScore (s : ℚ) : Nat :=
  if s > 300 then 3 else if s > 200 then 2 else if s > 100 then 1 else 0

/-- Air-quality contribution: `if (a > 250) +2 else if (a > 150) +1`. -/
def airScore (a : ℚ) : Nat :=
  if a > 250 then 2 else if a > 150 then 1 else 0

/-- Total severity score accumulated by `calculateSeverity`. -/
def severityScore (t h s a : ℚ) : Nat :=
  tempScore t + humidityScore h + smokeScore s + airScore a

/-- Final tier mapping in `calculateSeverity`:
`>= 8 EXTREME, >= 6 CRITICAL, >= 4 HIGH, >= 2 MODERATE, else LOW`. -/
def severityOfScore (n : Nat) : Severity :=
  if n ≥ 8 then EXTREME
  else if n ≥ 6 then CRITICAL
  else if n ≥ 4 then HIGH
  else if n ≥ 2 then MODERATE
  else LOW

/-- `FireAlertService.calculateSeverity` on fully numeric readings. -/
def calculateSeverity (t h s a : ℚ) : Severity :=
  severityOfScore (severityScore t h s a)

/-! ### The spec's table-driven severity policy (for the refinement claim C1)

Modelled from the spec: for each metric a list of (threshold, points)
pairs; only the highest matching threshold contributes; contributions are
summed; the sum maps to a tier. -/

/-- Spec-side: points of the highest matching threshold among pairs
matched by `v > threshold` (0 when none matches). -/
def specHighestAbove (table : List (ℚ × Nat)) (v : ℚ) : Nat :=
  (table.filter (fun p => v > p.1)).foldr (fun p acc => max p.2 acc) 0

/-- Spec-side: points of the highest matching threshold among pairs
matched by `v < threshold` (0 when none matches). -/
def specHighestBelow (table : List (ℚ × Nat)) (v : ℚ) : Nat :=
  (table.filter (fun p => v < p.1)).foldr (fun p acc => max p.2 acc) 0

/-- Spec-side total score: per-metric threshold tables from the spec,
highest matching tier only, summed. -/
def specSeverityScore (t h s a : ℚ) : Nat :=
  specHighestAbove [(35, 1), (45, 2), (60, 3)] t +
  specHighestBelow [(50, 1), (35, 2), (20, 3)] h +
  specHighestAbove [(100, 1), (200, 2), (300, 3)] s +
  specHighestAbove [(150, 1), (250, 2)] a

/-- Spec-side tier mapping of the total score. -/
def specTier (n : Nat) : Severity :=
  if n ≥ 8 then EXTREME
  else if n ≥ 6 then CRITICAL
  else if n ≥ 4 then HIGH
  else if n ≥ 2 then MODERATE
  else LOW

/-- Spec-side severity of a payload with numeric readings. -/
def specSeverity (t h s a : ℚ) : Severity :=
  specTier (specSeverityScore t h s a)

/-! ### `FireAlertService.processFireAlert` and validation -/

/-- A GPS-like coordinate object with possibly-missing numeric fields. -/
structure Coords where
  latitude : Option ℚ
  longitude : Option ℚ
deriving DecidableEq, Repr

/-- The raw alert payload consumed by `processFireAlert`. -/
structure AlertData where
  deviceId : Option String
  temperature : Option ℚ
  humidity : Option ℚ
  smoke_level : Option ℚ
  air_quality : Option ℚ
  location : Option Coords
deriving DecidableEq, Repr

/-- `FireAlertService.validateAlertData`: the loop requires `deviceId`,
`temperature` and `location` to be truthy (`!data[field]` rejects absent,
empty-string and zero values), then requires `location.latitude` and
`location.longitude` to be truthy. -/
def validateAlertData (d : AlertData) : Bool :=
  strTruthy d.deviceId && numTruthy d.temperature &&
    (match d.location with
     | none => false
     | some loc => numTruthy loc.latitude && numTruthy loc.longitude)

/-- Temperature contribution when the field may be absent: every JS
comparison against `undefined` is false, so a missing field scores 0. -/
def tempScoreOpt : Option ℚ → Nat
  | none => 0
  | some t => tempScore t

/-- Humidity contribution for a possibly-missing field. -/
def humidityScoreOpt : Option ℚ → Nat
  | none => 0
  | some h => humidityScore h

/-- Smoke contribution for a possibly-missing field. -/
def smokeScoreOpt : Option ℚ → Nat
  | none => 0
  | some s => smokeScore s

/-- Air-quality contribution for a possibly-missing field. -/
def airScoreOpt : Option ℚ → Nat
  | none => 0
  | some a => airScore a

/-- `calculateSeverity` as invoked by `processFireAlert` on the raw
payload, whose optional metrics score 0 when absent. -/
def calculateSeverityData (d : AlertData) : Severity :=
  severityOfScore (tempScoreOpt d.temperature + humidityScoreOpt d.humidity +
    smokeScoreOpt d.smoke_level + airScoreOpt d.air_quality)

/-- The structured alert built by `processFireAlert` (the clock/RNG
derived `id` and timestamp are omitted). -/
structure ProcessedAlert where
  deviceId : Option String
  severity : Severity
  temperature : Option ℚ
  humidity : Option ℚ
  smoke_level : Option ℚ
  air_quality : Option ℚ
  location : Option Coords
  emergency : Bool
  processed : Bool
deriving DecidableEq, Repr

/-- `FireAlertService.processFireAlert`: throws
`Invalid alert data structure` when validation fails, otherwise computes
severity and returns the structured alert. -/
def processFireAlert (d : AlertData) : Except String ProcessedAlert :=
  if validateAlertData d then
    .ok { deviceId := d.deviceId, severity := calculateSeverityData d,
          temperature := d.temperature, humidity := d.humidity,
          smoke_level := d.smoke_level, air_quality := d.air_quality,
          location := d.location, emergency := true, processed := true }
  else
    .error "Invalid alert data structure"

/-! ### `processNotification` (routes/sns.js): extraction and broadcast -/

/-- The nested `payload` object of an inbound data notification. -/
structure RawPayload where
  temperature : Option ℚ
  humidity : Option ℚ
  smoke_level : Option ℚ
  air_quality : Option ℚ
  is_emergency : Option Bool
  emergency : Option Bool
  gps : Option Coords
deriving DecidableEq, Repr

/-- The object form of the inner SNS `Message` as read by
`processNotification`. -/
structure MessageData where
  deviceId : Option String
  device : Option String
  temperature : Option ℚ
  humidity : Option ℚ
  smoke_level : Option ℚ
  air_quality : Option ℚ
  is_emergency : Option Bool
  emergency : Option Bool
  payload : Option RawPayload
  location : Option Coords
  gps : Option Coords
  severity : Option String
deriving DecidableEq, Repr

/-- The inner message content after `JSON.parse(snsMessage.Message)` with
its string fallback: an object, a string, or some other non-object value
(e.g. `undefined` when `Message` was absent). -/
inductive MessageContent where
  | obj : MessageData → MessageContent
  | str : String → MessageContent
  | undef : MessageContent
deriving DecidableEq, Repr

/-- Whether `pat` occurs as a contiguous run inside `l` (the JS
`String.prototype.includes` on character lists). -/
def containsSeq (pat : List Char) : List Char → Bool
  | [] => pat.isEmpty
  | c :: tl => pat.isPrefixOf (c :: tl) || containsSeq pat tl

/-- `subject && subject.toLowerCase().includes('fire')`. -/
def subjectHasFire : Option String → Bool
  | none => false
  | some s =>
    if s = "" then false
    else containsSeq ("fire".toList) (s.toList.map Char.toLower)

/-- The emergency flag check of `processNotification`:
`is_emergency || emergency || payload?.is_emergency || payload?.emergency
|| false`. -/
def msgIsEmergency (m : MessageData) : Bool :=
  boolTruthy m.is_emergency || boolTruthy m.emergency ||
  boolTruthy (m.payload.bind RawPayload.is_emergency) ||
  boolTruthy (m.payload.bind RawPayload.emergency)

/-- `messageData.deviceId || messageData.device || 'Unknown Device'` —
note: no probe under `payload`. -/
def extractDeviceId (m : MessageData) : String :=
  strOr m.deviceId (strOr m.device "Unknown Device")

/-- `messageData.payload?.temperature || messageData.temperature || 0` —
the nested payload field is probed first. -/
def extractTemperature (m : MessageData) : ℚ :=
  numOr (m.payload.bind RawPayload.temperature) (numOr m.temperature 0)

/-- `messageData.payload?.humidity || messageData.humidity || 0`. -/
def extractHumidity (m : MessageData) : ℚ :=
  numOr (m.payload.bind RawPayload.humidity) (numOr m.humidity 0)

/-- `messageData.payload?.smoke_level || messageData.smoke_level || 0`. -/
def extractSmokeLevel (m : MessageData) : ℚ :=
  numOr (m.payload.bind RawPayload.smoke_level) (numOr m.smoke_level 0)

/-- `messageData.payload?.air_quality || messageData.air_quality || 0`. -/
def extractAirQuality (m : MessageData) : ℚ :=
  numOr (m.payload.bind RawPayload.air_quality) (numOr m.air_quality 0)

/-- The hardcoded fallback latitude `36.006397` (exact rational
36006397/1000000, stated in decimal form by `fallbackLatitude_val`). -/
def fallbackLatitude : ℚ := ⟨36006397, 1000000, by decide, by decide⟩

/-- The hardcoded fallback longitude `10.1715` (exact rational
20343/2000, stated in decimal form by `fallbackLongitude_val`). -/
def fallbackLongitude : ℚ := ⟨20343, 2000, by decide, by decide⟩

/-- The first latitude source: `messageData.payload?.gps?.latitude`. -/
def payloadGpsLat (m : MessageData) : Option ℚ :=
  (m.payload.bind RawPayload.gps).bind Coords.latitude

/-- The first longitude source: `messageData.payload?.gps?.longitude`. -/
def payloadGpsLon (m : MessageData) : Option ℚ :=
  (m.payload.bind RawPayload.gps).bind Coords.longitude

/-- `payload?.gps?.latitude || location?.latitude || gps?.latitude ||
36.006397`. -/
def extractLatitude (m : MessageData) : ℚ :=
  numOr (payloadGpsLat m)
    (numOr (m.location.bind Coords.latitude)
      (numOr (m.gps.bind Coords.latitude) fallbackLatitude))

/-- `payload?.gps?.longitude || location?.longitude || gps?.longitude ||
10.1715`. -/
def extractLongitude (m : MessageData) : ℚ :=
  numOr (payloadGpsLon m)
    (numOr (m.location.bind Coords.longitude)
      (numOr (m.gps.bind Coords.longitude) fallbackLongitude))

/-- Severity the classifier assigns to the readings extracted from a data
notification (used to state the spec's claimed severity-based emergency
condition). -/
def severityOfMessage (m : MessageData) : Severity :=
  calculateSeverity (extractTemperature m) (extractHumidity m)
    (extractSmokeLevel m) (extractAirQuality m)

/-- The `fireAlertData.data` object built by `processNotification`. -/
structure FireAlertData where
  deviceId : String
  temperature : ℚ
  humidity : ℚ
  smoke_level : ℚ
  air_quality : ℚ
  latitude : ℚ
  longitude : ℚ
  emergency : Bool
  severity : String
deriving DecidableEq, Repr

/-- Field-by-field construction of `fireAlertData.data` in
`processNotification`. -/
def buildFireAlertData (m : MessageData) : FireAlertData :=
  { deviceId := extractDeviceId m,
    temperature := extractTemperature m,
    humidity := extractHumidity m,
    smoke_level := extractSmokeLevel m,
    air_quality := extractAirQuality m,
    latitude := extractLatitude m,
    longitude := extractLongitude m,
    emergency := true,
    severity := strOr m.severity "CRITICAL" }

/-- A single WebSocket emission: `room = none` is an `io.emit` to every
connected client; `room = some r` is an `io.to(r).emit`. -/
structure Emission where
  event : String
  room : Option String
deriving DecidableEq, Repr

/-- Result of `processNotification`: the emissions performed and the
alert data built (if any). The function has an internal catch-all, so it
always returns. -/
structure NotifyResult where
  emissions : List Emission
  alert : Option FireAlertData
deriving DecidableEq, Repr

/-- `processNotification(subject, messageData)` with the availability of
`global.io` made explicit: broadcasts one `fire-emergency` event to all
clients only when the subject contains "fire" (case-insensitively), the
message is an object, some raw emergency flag is truthy, and the hub is
available. -/
def processNotification (subject : Option String) (content : MessageContent)
    (ioAvailable : Bool) : NotifyResult :=
  if subjectHasFire subject then
    match content with
    | .obj m =>
      if msgIsEmergency m then
        { emissions := if ioAvailable then [⟨"fire-emergency", none⟩] else [],
          alert := some (buildFireAlertData m) }
      else { emissions := [], alert := none }
    | .str _ => { emissions := [], alert := none }
    | .undef => { emissions := [], alert := none }
  else { emissions := [], alert := none }

/-! ### `POST /sns/webhook` handler and the subscription branch -/

/-- Outcome of the outbound `fetch(subscribeUrl)`: a response with its
`ok` flag and status, or a thrown network error. -/
inductive FetchOutcome where
  | response (ok : Bool) (status : Nat)
  | thrown (msg : String)
deriving DecidableEq, Repr

/-- One auto-confirmation attempt: the single `fetch` plus the
`response.ok` branch; a network failure surfaces as a JS exception. The
first component counts outbound fetches performed. -/
def confirmAttempt (outcome : FetchOutcome) : Except String (Nat × List String) :=
  match outcome with
  | .response ok status =>
    .ok (1, [if ok then "Auto-confirmed SNS subscription: " ++ toString status
             else "Confirmation request failed: " ++ toString status])
  | .thrown msg => .error msg

/-- The `SubscriptionConfirmation` branch of the webhook:
`SubscribeURL || subscribeURL || SubscribeUrl`, then a guarded fetch in a
`try/catch`, else a warning log. Returns (fetch count, logs). -/
def subscriptionBranch (urlA urlB urlC : Option String)
    (outcome : FetchOutcome) : Nat × List String :=
  let subscribeUrl := strOrOpt urlA (strOrOpt urlB urlC)
  if strTruthy subscribeUrl then
    jsTry (confirmAttempt outcome)
      (fun e => (1, ["Failed to auto-confirm subscription: " ++ e]))
  else (0, ["No SubscribeURL found in confirmation message"])

/-- The parsed SNS envelope as read by the `/sns/webhook` handler. -/
structure SnsEnvelope where
  MessageId : Option String
  Subject : Option String
  message : MessageContent
  SubscribeURL : Option String
  subscribeURL : Option String
  SubscribeUrl : Option String
deriving DecidableEq, Repr

/-- The body after the handler's Buffer/string/object normalization:
either `JSON.parse` threw, or it produced an envelope object. -/
inductive ParsedBody where
  | parseError
  | envelope (env : SnsEnvelope)
deriving DecidableEq, Repr

/-- The HTTP response of a webhook handler. -/
structure WebhookResponse where
  status : Nat
  success : Bool
deriving DecidableEq, Repr

/-- The `POST /sns/webhook` handler: dispatch on the
`x-amz-sns-message-type` header; every branch is internally guarded, so
the handler acknowledges 200 whenever the body parsed, and responds 500
with `success:false` only when `JSON.parse` threw. Returns the response,
the emissions performed, and the number of outbound fetches. -/
def handleSnsWebhook (msgType : Option String) (body : ParsedBody)
    (outcome : FetchOutcome) (ioAvailable : Bool) :
    WebhookResponse × List Emission × Nat :=
  match body with
  | .parseError => (⟨500, false⟩, [], 0)
  | .envelope env =>
    if msgType = some "SubscriptionConfirmation" then
      let r := subscriptionBranch env.SubscribeURL env.subscribeURL
        env.SubscribeUrl outcome
      (⟨200, true⟩, [], r.1)
    else if msgType = some "Notification" then
      let r := processNotification env.Subject env.message ioAvailable
      (⟨200, true⟩, r.emissions, 0)
    else
      (⟨200, true⟩, [], 0)

/-! ### `POST /webhook/fire-alert` alias (routes/fireAlertWebhook) -/

/-- The alert object sent by the Lambda, as read by the alias handler. -/
structure LambdaAlert where
  deviceId : Option String
  temperature : Option ℚ
  humidity : Option ℚ
  smoke_level : Option ℚ
  air_quality : Option ℚ
  location : Option Coords
  severity : Option String
deriving DecidableEq, Repr

/-- The alias handler's body: either the outer `JSON.parse` threw, or an
envelope with a `Type`, the result of the unguarded inner
`JSON.parse(message.Message)` (`none` when that parse throws), and the
`SubscribeURL`. -/
inductive FireAlertBody where
  | parseError
  | envelope (type : Option String) (inner : Option LambdaAlert)
      (subscribeUrl : Option String)
deriving DecidableEq, Repr

/-- The `POST /webhook/fire-alert` handler. The subscription branch wraps
its fetch in `try/catch` and always acks 200. The notification branch
runs `JSON.parse(message.Message)` and reads
`alertData.location.latitude` outside any inner guard: a non-JSON inner
message or a missing `location` object raises, is caught by the outer
catch, and yields a 500. -/
def handleFireAlertWebhook (body : FireAlertBody) (ioAvailable : Bool) :
    WebhookResponse × List Emission :=
  match body with
  | .parseError => (⟨500, false⟩, [])
  | .envelope ty inner _subscribeUrl =>
    if ty = some "SubscriptionConfirmation" then
      (⟨200, true⟩, [])
    else if ty = some "Notification" then
      match inner with
      | none => (⟨500, false⟩, [])
      | some alertData =>
        match alertData.location with
        | none => (⟨500, false⟩, [])
        | some _loc =>
          let ems := if ioAvailable then
              [⟨"fire-emergency", none⟩,
               ⟨"device-emergency",
                some ("device-" ++ (alertData.deviceId.getD "undefined"))⟩,
               ⟨"emergency-popup", none⟩]
            else []
          (⟨200, true⟩, ems)
    else (⟨200, true⟩, [])

/-! ### Real-Time Hub: `broadcast.fireEmergency` and room delivery -/

/-- `broadcast.fireEmergency(alertData)` from socketHandler.js: emits
`fire-emergency` and `emergency-popup` to every client, then
`device-emergency` to the `device-<deviceId>` room when
`alertData.deviceId` is truthy. -/
def fireEmergencyEmissions (deviceId : Option String) : List Emission :=
  [⟨"fire-emergency", none⟩, ⟨"emergency-popup", none⟩] ++
    (match deviceId with
     | some d => if d = "" then [] else [⟨"device-emergency", some ("device-" ++ d)⟩]
     | none => [])

/-- Whether a connection with room membership `member` receives an
emission: all-client emissions always, room emissions iff joined. -/
def receives (member : String → Bool) (e : Emission) : Bool :=
  match e.room with
  | none => true
  | some r => member r

/-- The `subscribe-fire-alerts` handler: joins the socket to the
`fire-alerts` room. -/
def subscribeFireAlerts (member : String → Bool) : String → Bool :=
  fun r => if r = "fire-alerts" then true else member r

/-! ### Alert History Ring -/

/-- `FireAlertService.addToHistory`: unshift at the head, then truncate
to `maxHistorySize = 100` when over capacity. -/
def addToHistory (alert : α) (history : List α) : List α :=
  let h := alert :: history
  if h.length > 100 then h.take 100 else h

/-- `FireAlertService.getRecentAlerts`: `alertHistory.slice(0, limit)`
(non-mutating in the source; a pure projection here). -/
def getRecentAlerts (limit : Nat) (history : List α) : List α :=
  history.take limit

/-- Folding `addToHistory` over a list of alerts, earliest first. -/
def insertAll (items : List α) (history : List α) : List α :=
  items.foldl (fun h a => addToHistory a h) history

/-! ### Concrete payloads for witnesses and counterexamples -/

/-- The payload with every field absent. -/
def emptyAlert : AlertData := ⟨none, none, none, none, none, none⟩

/-- 95.5 as an exact rational. -/
def q95p5 : ℚ := ⟨191, 2, by decide, by decide⟩

/-- 15.2 as an exact rational. -/
def q15p2 : ℚ := ⟨76, 5, by decide, by decide⟩

/-- A payload whose temperature is present but zero (falsy in JS). -/
def zeroTempAlert : AlertData :=
  ⟨some "Node-1", some 0, some 40, some 50, some 50,
   some ⟨some fallbackLatitude, some fallbackLongitude⟩⟩

/-- The spec's example scenario 1 readings (temperature 95.5, humidity
15.2, smoke 950) as a `processFireAlert` payload. -/
def validAlert : AlertData :=
  ⟨some "Node-1", some q95p5, some q15p2, some 950, none,
   some ⟨some fallbackLatitude, some fallbackLongitude⟩⟩

/-- A message with every field absent. -/
def emptyMsg : MessageData :=
  ⟨none, none, none, none, none, none, none, none, none, none, none, none⟩

/-- A nested payload with every field absent. -/
def emptyRawPayload : RawPayload :=
  ⟨none, none, none, none, none, none, none⟩

/-- A flagless message whose sensor readings score EXTREME: no emergency
flag anywhere, payload readings temperature 95.5, humidity 15.2,
smoke 950. -/
def flaglessExtremeMsg : MessageData :=
  { emptyMsg with
    device := some "Node-1",
    payload := some { emptyRawPayload with
      temperature := some q95p5, humidity := some q15p2,
      smoke_level := some 950 } }

/-- A message carrying temperature both at top level (10) and under
`payload` (99). -/
def duplicatedTempMsg : MessageData :=
  { emptyMsg with
    temperature := some 10,
    payload := some { emptyRawPayload with temperature := some 99 } }

/-- An envelope whose subject "Routine Check" lacks the fire keyword. -/
def routineEnv : SnsEnvelope :=
  ⟨some "msg-1", some "Routine Check", .undef, none, none, none⟩

/-- A message whose latitude sources are zero or absent while a longitude
source is present: `payload.gps = {latitude: 0, longitude: 5}`. -/
def zeroLatMsg : MessageData :=
  { emptyMsg with
    payload := some { emptyRawPayload with
      gps := some ⟨some 0, some 5⟩ } }

end Wildfire

/-! ## Helper lemmas -/

open Wildfire

lemma fallbackLatitude_val : Wildfire.fallbackLatitude = 36.006397 := by
  rw [Wildfire.fallbackLatitude, Rat.mk'_eq_divInt, Rat.divInt_eq_div]; norm_num

lemma fallbackLongitude_val : Wildfire.fallbackLongitude = 10.1715 := by
  rw [Wildfire.fallbackLongitude, Rat.mk'_eq_divInt, Rat.divInt_eq_div]; norm_num

lemma tempScore_eq_spec (t : ℚ) :
    Wildfire.tempScore t = Wildfire.specHighestAbove [(35, 1), (45, 2), (60, 3)] t := by
  by_cases h60 : t > 60 <;> by_cases h45 : t > 45 <;> by_cases h35 : t > 35 <;>
    simp [Wildfire.tempScore, Wildfire.specHighestAbove, List.filter, h60, h45, h35]

lemma humidityScore_eq_spec (h : ℚ) :
    Wildfire.humidityScore h = Wildfire.specHighestBelow [(50, 1), (35, 2), (20, 3)] h := by
  by_cases h20 : h < 20 <;> by_cases h35 : h < 35 <;> by_cases h50 : h < 50 <;>
    simp [Wildfire.humidityScore, Wildfire.specHighestBelow, List.filter, h20, h35, h50]

lemma smokeScore_eq_spec (s : ℚ) :
    Wildfire.smokeScore s = Wildfire.specHighestAbove [(100, 1), (200, 2), (300, 3)] s := by
  by_cases h3 : s > 300 <;> by_cases h2 : s > 200 <;> by_cases h1 : s > 100 <;>
    simp [Wildfire.smokeScore, Wildfire.specHighestAbove, List.filter, h3, h2, h1]

lemma airScore_eq_spec (a : ℚ) :
    Wildfire.airScore a = Wildfire.specHighestAbove [(150, 1), (250, 2)] a := by
  by_cases h2 : a > 250 <;> by_cases h1 : a > 150 <;>
    simp [Wildfire.airScore, Wildfire.specHighestAbove, List.filter, h2, h1]

lemma numOr_of_falsy (x : Option ℚ) (y : ℚ) (hx : Wildfire.numTruthy x = false) :
    Wildfire.numOr x y = y := by
  cases x with
  | none => rfl
  | some v =>
    simp [Wildfire.numTruthy] at hx
    simp [Wildfire.numOr, hx]

lemma numOr_of_truthy (x : Option ℚ) (y v : ℚ) (hx : x = some v) (hv : v ≠ 0) :
    Wildfire.numOr x y = v := by
  subst hx
  simp [Wildfire.numOr, hv]

lemma device_room_ne_fire_alerts (d : String) : "device-" ++ d ≠ "fire-alerts" := by
  intro h
  have hdata := congrArg String.data h
  rw [String.data_append] at hdata
  rw [show "device-".data = ['d', 'e', 'v', 'i', 'c', 'e', '-'] from rfl] at hdata
  rw [show "fire-alerts".data =
    ['f', 'i', 'r', 'e', '-', 'a', 'l', 'e', 'r', 't', 's'] from rfl] at hdata
  simp at hdata

lemma processNotification_emissions_cases (subject : Option String)
    (content : Wildfire.MessageContent) (io : Bool) :
    (Wildfire.processNotification subject content io).emissions = [] ∨
    (Wildfire.processNotification subject content io).emissions =
      [⟨"fire-emergency", none⟩] := by
  unfold Wildfire.processNotification
  by_cases hf : Wildfire.subjectHasFire subject
  · cases content with
    | obj m =>
      by_cases he : Wildfire.msgIsEmergency m
      · cases io <;> simp [hf, he]
      · simp [hf, he]
    | str s => simp [hf]
    | undef => simp [hf]
  · simp [hf]

/-! ## Claim theorems -/

/-- C1: for every payload with numeric temperature, humidity, smoke_level
and air_quality, `calculateSeverity` equals the spec's table-driven
policy: per metric only the highest matching threshold contributes, the
contributions are summed, and the total maps to EXTREME if ≥ 8, CRITICAL
if ≥ 6, HIGH if ≥ 4, MODERATE if ≥ 2, else LOW. -/
theorem calculateSeverity_eq_specSeverity (t h s a : ℚ) :
    Wildfire.calculateSeverity t h s a = Wildfire.specSeverity t h s a := by
  have hscore : Wildfire.severityScore t h s a = Wildfire.specSeverityScore t h s a := by
    unfold Wildfire.severityScore Wildfire.specSeverityScore
    rw [tempScore_eq_spec, humidityScore_eq_spec, smokeScore_eq_spec, airScore_eq_spec]
  unfold Wildfire.calculateSeverity Wildfire.specSeverity
  rw [hscore]
  rfl

/-- C2 counterexample: `processFireAlert` rejects the all-absent payload
and the payload whose temperature is present but zero, throwing
`Invalid alert data structure` — the error branch is reachable and the
claimed never-throws behavior is false. -/
theorem processFireAlert_throws_on_missing_or_zero_fields :
    Wildfire.processFireAlert Wildfire.emptyAlert =
      .error "Invalid alert data structure" ∧
    Wildfire.processFireAlert Wildfire.zeroTempAlert =
      .error "Invalid alert data structure" :=
  ⟨rfl, rfl⟩

/-- C2 (amended): `processFireAlert` terminates on every payload; when
`validateAlertData` rejects (absent or falsy deviceId, temperature,
location, or location coordinate) it throws
`Invalid alert data structure`, and when validation passes it returns the
structured alert whose severity is one of the five tiers (absent
humidity/smoke/air-quality metrics contribute score 0). -/
theorem processFireAlert_validation_behavior (d : Wildfire.AlertData) :
    (Wildfire.validateAlertData d = false →
      Wildfire.processFireAlert d = .error "Invalid alert data structure") ∧
    (Wildfire.validateAlertData d = true →
      Wildfire.processFireAlert d = .ok
        { deviceId := d.deviceId, severity := Wildfire.calculateSeverityData d,
          temperature := d.temperature, humidity := d.humidity,
          smoke_level := d.smoke_level, air_quality := d.air_quality,
          location := d.location, emergency := true, processed := true } ∧
      (Wildfire.calculateSeverityData d = .LOW ∨
       Wildfire.calculateSeverityData d = .MODERATE ∨
       Wildfire.calculateSeverityData d = .HIGH ∨
       Wildfire.calculateSeverityData d = .CRITICAL ∨
       Wildfire.calculateSeverityData d = .EXTREME)) := by
  constructor
  · intro hval
    simp [Wildfire.processFireAlert, hval]
  · intro hval
    refine ⟨by simp [Wildfire.processFireAlert, hval], ?_⟩
    cases hsev : Wildfire.calculateSeverityData d <;> simp

/-- C2 witness: the valid scenario-1 payload passes validation and gets
severity EXTREME; the all-absent payload is rejected. -/
theorem processFireAlert_validation_behavior_witness :
    (Wildfire.processFireAlert Wildfire.validAlert = .ok
        { deviceId := Wildfire.validAlert.deviceId,
          severity := Wildfire.calculateSeverityData Wildfire.validAlert,
          temperature := Wildfire.validAlert.temperature,
          humidity := Wildfire.validAlert.humidity,
          smoke_level := Wildfire.validAlert.smoke_level,
          air_quality := Wildfire.validAlert.air_quality,
          location := Wildfire.validAlert.location,
          emergency := true, processed := true } ∧
      (Wildfire.calculateSeverityData Wildfire.validAlert = .LOW ∨
       Wildfire.calculateSeverityData Wildfire.validAlert = .MODERATE ∨
       Wildfire.calculateSeverityData Wildfire.validAlert = .HIGH ∨
       Wildfire.calculateSeverityData Wildfire.validAlert = .CRITICAL ∨
       Wildfire.calculateSeverityData Wildfire.validAlert = .EXTREME)) ∧
    Wildfire.processFireAlert Wildfire.emptyAlert =
      .error "Invalid alert data structure" :=
  ⟨(processFireAlert_validation_behavior Wildfire.validAlert).2 (by decide),
   (processFireAlert_validation_behavior Wildfire.emptyAlert).1 (by decide)⟩

/-- C3 counterexample: a flagless message whose readings score EXTREME is
not treated as an emergency — `isEmergency` is false and no broadcast
happens even under a fire subject, contradicting the claimed
severity-based disjunct. -/
theorem isEmergency_ignores_severity_tier :
    Wildfire.msgIsEmergency Wildfire.flaglessExtremeMsg = false ∧
    Wildfire.severityOfMessage Wildfire.flaglessExtremeMsg =
      Wildfire.Severity.EXTREME ∧
    (Wildfire.processNotification (some "Fire Alert")
      (.obj Wildfire.flaglessExtremeMsg) true).emissions = [] := by
  decide

/-- C3 (amended): a data notification is broadcast iff the subject
contains "fire", some raw emergency flag (`is_emergency`/`emergency`,
top-level or under `payload`) is truthy, and the hub is available; the
computed severity tier plays no role. -/
theorem processNotification_broadcast_iff_flags (subject : Option String)
    (m : Wildfire.MessageData) (io : Bool) :
    (Wildfire.processNotification subject (.obj m) io).emissions ≠ [] ↔
      (Wildfire.subjectHasFire subject = true ∧
       Wildfire.msgIsEmergency m = true ∧ io = true) := by
  unfold Wildfire.processNotification
  by_cases hf : Wildfire.subjectHasFire subject <;>
    by_cases he : Wildfire.msgIsEmergency m <;> cases io <;> simp [hf, he]

/-- C4 counterexample: the `/webhook/fire-alert` alias responds 500 on a
body that parsed into a Notification envelope whose inner `Message` is
not valid JSON, although the claim allows 500 only for unparseable
bodies. -/
theorem fireAlert_alias_500_on_parsed_envelope :
    (Wildfire.handleFireAlertWebhook
      (.envelope (some "Notification") none none) true).1 =
      ⟨500, false⟩ :=
  rfl

/-- C4 (amended): `/sns/webhook` responds 200 with success on every
parsed envelope and 500 only when parsing threw; the `/webhook/fire-alert`
alias responds 500 exactly when the body is unparseable, or the envelope
is a Notification whose inner `Message` fails to parse as JSON or whose
parsed alert lacks a `location` object. -/
theorem webhook_ack_policy (msgType : Option String)
    (env : Wildfire.SnsEnvelope) (outcome : Wildfire.FetchOutcome)
    (io : Bool) (body : Wildfire.FireAlertBody) :
    (Wildfire.handleSnsWebhook msgType (.envelope env) outcome io).1 =
      ⟨200, true⟩ ∧
    (Wildfire.handleSnsWebhook msgType .parseError outcome io).1 =
      ⟨500, false⟩ ∧
    ((Wildfire.handleFireAlertWebhook body io).1.status = 500 ↔
      (body = .parseError ∨
        ∃ inner url, body = .envelope (some "Notification") inner url ∧
          (inner = none ∨ ∃ a, inner = some a ∧ a.location = none))) := by
  refine ⟨?_, rfl, ?_⟩
  · unfold Wildfire.handleSnsWebhook
    split_ifs <;> rfl
  · cases body with
    | parseError => simp [Wildfire.handleFireAlertWebhook]
    | envelope ty inner url =>
      by_cases h1 : ty = some "SubscriptionConfirmation"
      · subst h1
        simp [Wildfire.handleFireAlertWebhook]
      · by_cases h2 : ty = some "Notification"
        · subst h2
          cases inner with
          | none => simp [Wildfire.handleFireAlertWebhook]
          | some a =>
            cases hl : a.location with
            | none => simp [Wildfire.handleFireAlertWebhook, hl]
            | some loc =>
              cases io <;> simp [Wildfire.handleFireAlertWebhook, hl]
        · simp [Wildfire.handleFireAlertWebhook, h1, h2]

/-- C5 counterexample: with temperature 10 at top level and 99 under
`payload`, the extraction takes the nested payload value 99, not the
top-level 10 the claim requires. -/
theorem extraction_payload_overrides_top_level :
    Wildfire.duplicatedTempMsg.temperature = some 10 ∧
    (Wildfire.duplicatedTempMsg.payload.bind Wildfire.RawPayload.temperature) =
      some 99 ∧
    Wildfire.extractTemperature Wildfire.duplicatedTempMsg = 99 ∧
    Wildfire.extractTemperature Wildfire.duplicatedTempMsg ≠ 10 := by
  decide

/-- C5 (amended): the probe order is per-field. The numeric sensor fields
probe `payload.<field>` first and fall back to the top-level key; the
device id probes only the top-level `deviceId` then `device`; the
latitude probes `payload.gps.latitude` first; a truthy top-level
`is_emergency` makes the flag check true. A falsy (absent or zero) source
is skipped, not merely an absent one. -/
theorem extraction_priority_order (m : Wildfire.MessageData)
    (v w : ℚ) (s : String) :
    ((m.payload.bind Wildfire.RawPayload.temperature) = some v → v ≠ 0 →
      Wildfire.extractTemperature m = v) ∧
    (Wildfire.numTruthy (m.payload.bind Wildfire.RawPayload.temperature) = false →
      Wildfire.extractTemperature m = Wildfire.numOr m.temperature 0) ∧
    (m.deviceId = some s → s ≠ "" → Wildfire.extractDeviceId m = s) ∧
    (Wildfire.extractDeviceId m =
      Wildfire.extractDeviceId { m with payload := none }) ∧
    (Wildfire.payloadGpsLat m = some w → w ≠ 0 →
      Wildfire.extractLatitude m = w) ∧
    (Wildfire.boolTruthy m.is_emergency = true →
      Wildfire.msgIsEmergency m = true) := by
  refine ⟨?_, ?_, ?_, rfl, ?_, ?_⟩
  · intro hx hv
    exact numOr_of_truthy _ _ _ hx hv
  · intro hx
    exact numOr_of_falsy _ _ hx
  · intro hs hne
    simp [Wildfire.extractDeviceId, Wildfire.strOr, hs, hne]
  · intro hx hv
    exact numOr_of_truthy _ _ _ hx hv
  · intro hflag
    simp [Wildfire.msgIsEmergency, hflag]

/-- C5 witness: at the duplicated-temperature message, the payload value
99 wins. -/
theorem extraction_priority_order_witness :
    Wildfire.extractTemperature Wildfire.duplicatedTempMsg = 99 :=
  (extraction_priority_order Wildfire.duplicatedTempMsg 99 0 "x").1
    (by decide) (by decide)

/-- C6 counterexample: no emission of `broadcast.fireEmergency` targets
the fire-alerts room; a client subscribed only via
`subscribe-fire-alerts` receives just the two all-client events, no
room-scoped emergency event. -/
theorem fireEmergency_skips_fire_alerts_room :
    (Wildfire.fireEmergencyEmissions (some "Node-1")).filter
        (fun e => e.room == some "fire-alerts") = [] ∧
    (Wildfire.fireEmergencyEmissions (some "Node-1")).filter
        (Wildfire.receives (Wildfire.subscribeFireAlerts (fun _ => false))) =
      [⟨"fire-emergency", none⟩, ⟨"emergency-popup", none⟩] := by
  decide

/-- C6 (amended): `broadcast.fireEmergency` multicasts to two targets:
every connected client (`fire-emergency` and `emergency-popup`) and the
`device-<deviceId>` room (`device-emergency`) when the device id is
truthy; no emission targets the fire-alerts room, so a fire-alerts
subscriber outside the device room receives exactly the two all-client
events; the SNS `processNotification` path emits at most the single
all-clients `fire-emergency` event. -/
theorem fireEmergency_multicast_targets (d : String) (member : String → Bool)
    (hd : d ≠ "")
    (hfa : member "fire-alerts" = true)
    (hnd : member ("device-" ++ d) = false) :
    (Wildfire.fireEmergencyEmissions (some d)).filter
        (Wildfire.receives member) =
      [⟨"fire-emergency", none⟩, ⟨"emergency-popup", none⟩] ∧
    (∀ e ∈ Wildfire.fireEmergencyEmissions (some d),
      e.room ≠ some "fire-alerts") ∧
    Wildfire.Emission.mk "device-emergency" (some ("device-" ++ d)) ∈
      Wildfire.fireEmergencyEmissions (some d) ∧
    (∀ subject content io,
      ∀ e ∈ (Wildfire.processNotification subject content io).emissions,
        e.room = none ∧ e.event = "fire-emergency") := by
  refine ⟨?_, ?_, ?_, ?_⟩
  · simp [Wildfire.fireEmergencyEmissions, Wildfire.receives, hd, hfa, hnd]
  · intro e he
    simp [Wildfire.fireEmergencyEmissions, hd] at he
    rcases he with rfl | rfl | rfl <;> simp
    exact device_room_ne_fire_alerts d
  · simp [Wildfire.fireEmergencyEmissions, hd]
  · intro subject content io e he
    rcases processNotification_emissions_cases subject content io with hc | hc <;>
      rw [hc] at he
    · cases he
    · simp at he
      subst he
      exact ⟨rfl, rfl⟩

/-- C6 witness: device "Node-1" with a client joined only to the
fire-alerts room. -/
theorem fireEmergency_multicast_targets_witness :
    (Wildfire.fireEmergencyEmissions (some "Node-1")).filter
        (Wildfire.receives (Wildfire.subscribeFireAlerts (fun _ => false))) =
      [⟨"fire-emergency", none⟩, ⟨"emergency-popup", none⟩] ∧
    (∀ e ∈ Wildfire.fireEmergencyEmissions (some "Node-1"),
      e.room ≠ some "fire-alerts") ∧
    Wildfire.Emission.mk "device-emergency" (some ("device-" ++ "Node-1")) ∈
      Wildfire.fireEmergencyEmissions (some "Node-1") ∧
    (∀ subject content io,
      ∀ e ∈ (Wildfire.processNotification subject content io).emissions,
        e.room = none ∧ e.event = "fire-emergency") :=
  fireEmergency_multicast_targets "Node-1"
    (Wildfire.subscribeFireAlerts (fun _ => false))
    (by decide) (by decide) (by decide)

lemma addToHistory_eq_take (a : α) (h : List α) :
    Wildfire.addToHistory a h = (a :: h).take 100 := by
  by_cases hl : (a :: h).length > 100
  · simp [Wildfire.addToHistory, hl]
  · simp [Wildfire.addToHistory, hl,
      List.take_of_length_le (Nat.le_of_not_lt hl)]

lemma take_append_take (l t : List α) (n : Nat) :
    (l ++ t.take n).take n = (l ++ t).take n := by
  rw [List.take_append_eq_append_take, List.take_append_eq_append_take,
    List.take_take, Nat.min_eq_left (Nat.sub_le n l.length)]

lemma insertAll_eq (items : List α) (h : List α) (hh : h.length ≤ 100) :
    Wildfire.insertAll items h = (items.reverse ++ h).take 100 := by
  induction items generalizing h with
  | nil =>
    simp [Wildfire.insertAll, List.take_of_length_le hh]
  | cons a items ih =>
    have h1 : (Wildfire.addToHistory a h).length ≤ 100 := by
      rw [addToHistory_eq_take a h]
      simp [List.length_take]
    calc Wildfire.insertAll (a :: items) h
        = Wildfire.insertAll items (Wildfire.addToHistory a h) := rfl
      _ = (items.reverse ++ Wildfire.addToHistory a h).take 100 := ih _ h1
      _ = (items.reverse ++ (a :: h).take 100).take 100 := by
            rw [addToHistory_eq_take a h]
      _ = (items.reverse ++ (a :: h)).take 100 := take_append_take ..
      _ = ((a :: items).reverse ++ h).take 100 := by simp

lemma insertAll_length_le (items : List α) :
    (Wildfire.insertAll items ([] : List α)).length ≤ 100 := by
  rw [insertAll_eq items [] (by simp)]
  simp [List.length_take]

/-- C7: the alert history ring never exceeds capacity 100; after
inserting 100+k items (k ≥ 1) from empty, `getRecentAlerts 100` returns
exactly the last 100 inserted items newest-first (so the k earliest items
are absent: the retained ring is strictly shorter than the insert
sequence); and `getRecentAlerts` on the empty ring returns the empty
sequence for every limit. -/
theorem alertHistory_ring_invariant (α : Type) (items : List α) (k : Nat)
    (hlen : items.length = 100 + k) (hk : 1 ≤ k) :
    (∀ js : List α, (Wildfire.insertAll js ([] : List α)).length ≤ 100) ∧
    Wildfire.getRecentAlerts 100 (Wildfire.insertAll items []) =
      (items.drop k).reverse ∧
    (Wildfire.insertAll items ([] : List α)).length < items.length ∧
    (∀ limit, Wildfire.getRecentAlerts limit ([] : List α) = []) := by
  have hins : Wildfire.insertAll items ([] : List α) = items.reverse.take 100 := by
    rw [insertAll_eq items [] (by simp), List.append_nil]
  refine ⟨fun js => insertAll_length_le js, ?_, ?_,
    fun limit => by simp [Wildfire.getRecentAlerts]⟩
  · rw [hins]
    unfold Wildfire.getRecentAlerts
    rw [List.take_take, Nat.min_self, List.take_reverse, hlen,
      Nat.add_sub_cancel_left]
  · rw [hins]
    simp [List.length_take, hlen]
    omega

/-- C7 witness: 101 insertions into the capacity-100 ring. -/
theorem alertHistory_ring_invariant_witness :
    (∀ js : List ℕ, (Wildfire.insertAll js ([] : List ℕ)).length ≤ 100) ∧
    Wildfire.getRecentAlerts 100 (Wildfire.insertAll (List.range 101) []) =
      ((List.range 101).drop 1).reverse ∧
    (Wildfire.insertAll (List.range 101) ([] : List ℕ)).length <
      (List.range 101).length ∧
    (∀ limit, Wildfire.getRecentAlerts limit ([] : List ℕ) = []) :=
  alertHistory_ring_invariant ℕ (List.range 101) 1 (by simp) (by decide)

/-- C8: under a Notification header, the webhook broadcasts only when the
subject contains "fire" case-insensitively; with a fire-less (or absent)
subject there are no emissions and the delivery is still acknowledged
200; any nonempty emission list implies the subject contained "fire". -/
theorem notification_fire_keyword_gate (env : Wildfire.SnsEnvelope)
    (outcome : Wildfire.FetchOutcome) (io : Bool)
    (hns : Wildfire.subjectHasFire env.Subject = false) :
    (Wildfire.handleSnsWebhook (some "Notification")
      (.envelope env) outcome io).2.1 = [] ∧
    (Wildfire.handleSnsWebhook (some "Notification")
      (.envelope env) outcome io).1 = ⟨200, true⟩ ∧
    (∀ subject content io2,
      (Wildfire.processNotification subject content io2).emissions ≠ [] →
      Wildfire.subjectHasFire subject = true) := by
  refine ⟨?_, ?_, ?_⟩
  · simp [Wildfire.handleSnsWebhook, Wildfire.processNotification, hns]
  · simp [Wildfire.handleSnsWebhook]
  · intro subject content io2 hne
    cases hsf : Wildfire.subjectHasFire subject with
    | true => rfl
    | false =>
      exact absurd (by simp [Wildfire.processNotification, hsf]) hne

/-- C8 witness: subject "Routine Check" yields no emissions and a 200
acknowledgment. -/
theorem notification_fire_keyword_gate_witness :
    (Wildfire.handleSnsWebhook (some "Notification")
      (.envelope Wildfire.routineEnv) (.response true 200) true).2.1 = [] ∧
    (Wildfire.handleSnsWebhook (some "Notification")
      (.envelope Wildfire.routineEnv) (.response true 200) true).1 =
      ⟨200, true⟩ ∧
    (∀ subject content io2,
      (Wildfire.processNotification subject content io2).emissions ≠ [] →
      Wildfire.subjectHasFire subject = true) :=
  notification_fire_keyword_gate Wildfire.routineEnv (.response true 200) true
    (by decide)

/-- C9: the subscription-confirmation branch performs at most one
outbound fetch, always logs, and never propagates an error: the webhook
acknowledges 200 for every fetch outcome, including a thrown network
error; being stateless, a second invocation with the same URL behaves
identically. -/
theorem subscription_confirmation_never_propagates (a b c : Option String)
    (o : Wildfire.FetchOutcome) (env : Wildfire.SnsEnvelope) (io : Bool)
    (m : String) :
    (Wildfire.subscriptionBranch a b c o).1 ≤ 1 ∧
    (Wildfire.subscriptionBranch a b c o).2 ≠ [] ∧
    (Wildfire.handleSnsWebhook (some "SubscriptionConfirmation")
      (.envelope env) o io).1 = ⟨200, true⟩ ∧
    (Wildfire.handleSnsWebhook (some "SubscriptionConfirmation")
      (.envelope env) (.thrown m) io).1 = ⟨200, true⟩ := by
  refine ⟨?_, ?_, rfl, rfl⟩
  · simp only [Wildfire.subscriptionBranch]
    split_ifs
    · cases o <;> simp [Wildfire.jsTry, Wildfire.confirmAttempt]
    · simp
  · simp only [Wildfire.subscriptionBranch]
    split_ifs
    · cases o <;> simp [Wildfire.jsTry, Wildfire.confirmAttempt]
    · simp

/-- C10: each location coordinate falls back independently: when all
three latitude sources (`payload.gps.latitude`, `location.latitude`,
`gps.latitude`) are absent or falsy (including exactly 0), the latitude
becomes 36.006397, and likewise the longitude becomes 10.1715 when its
three sources are absent or falsy. -/
theorem location_fallback_per_coordinate (m : Wildfire.MessageData) :
    (Wildfire.numTruthy (Wildfire.payloadGpsLat m) = false →
     Wildfire.numTruthy (m.location.bind Wildfire.Coords.latitude) = false →
     Wildfire.numTruthy (m.gps.bind Wildfire.Coords.latitude) = false →
     Wildfire.extractLatitude m = Wildfire.fallbackLatitude) ∧
    (Wildfire.numTruthy (Wildfire.payloadGpsLon m) = false →
     Wildfire.numTruthy (m.location.bind Wildfire.Coords.longitude) = false →
     Wildfire.numTruthy (m.gps.bind Wildfire.Coords.longitude) = false →
     Wildfire.extractLongitude m = Wildfire.fallbackLongitude) := by
  constructor
  · intro h1 h2 h3
    unfold Wildfire.extractLatitude
    rw [numOr_of_falsy _ _ h1, numOr_of_falsy _ _ h2, numOr_of_falsy _ _ h3]
  · intro h1 h2 h3
    unfold Wildfire.extractLongitude
    rw [numOr_of_falsy _ _ h1, numOr_of_falsy _ _ h2, numOr_of_falsy _ _ h3]

/-- C10 witness: `payload.gps = {latitude: 0, longitude: 5}` — the
zero latitude triggers the fallback while the longitude keeps its
value 5, showing the per-coordinate behavior. -/
theorem location_fallback_per_coordinate_witness :
    Wildfire.extractLatitude Wildfire.zeroLatMsg = Wildfire.fallbackLatitude ∧
    Wildfire.extractLongitude Wildfire.zeroLatMsg = 5 :=
  ⟨(location_fallback_per_coordinate Wildfire.zeroLatMsg).1
      (by decide) (by decide) (by decide),
   by decide⟩
